import Mathlib

/-!
A verification development for the SolarOS decision/optimization core.

The repository ships a Next.js frontend together with a specification of a
backend engine. The portfolio optimization of spec section 4.5 — including
the degradation formulas of section 4.1 it evaluates — is present in the
checked-in sources as `optimizeFarmsClientSide`
(`src/web/src/components/dashboard/MultiFarmOptimizer.tsx`, lines 169-227),
the client-side twin the spec's section 9 describes; it is embedded below
statement for statement, constants included. The ScenarioSimulator day scan
and the RainForecastAdvisor have no implementation in the sources (their
callers only fetch `/analyze` and `/rain-forecast`), so those two are
modelled from the specification text, the day scan over the in-source
degradation law. The frontend fallback and error-handling paths are embedded
directly from the TypeScript sources.

All numeric quantities are embedded as rationals.
-/

namespace SolarOS

/-! ## The portfolio optimizer
(from `src/web/src/components/dashboard/MultiFarmOptimizer.tsx`, lines
169-227, `optimizeFarmsClientSide`) -/

/-- The `Farm` interface of `MultiFarmOptimizer.tsx` (lines 13-21). -/
structure Farm where
  name : String
  latitude : ℚ
  longitude : ℚ
  panel_area : ℚ
  dust_rate : ℚ
  electricity_price : ℚ
  water_usage : ℚ
deriving DecidableEq, Repr

/-- The `FarmScore` interface of `MultiFarmOptimizer.tsx` (lines 23-31). -/
structure FarmScore where
  name : String
  priority : ℚ
  water_usage : ℚ
  energy : ℚ
  benefit : ℚ
  co2 : ℚ
  roi : ℚ
deriving DecidableEq, Repr

/-- The dust constant of the in-source degradation law: `0.002` per
dust-unit-day (`MultiFarmOptimizer.tsx`, line 174). -/
def DEG_K : ℚ := 1 / 500

/-- The average irradiance used by the in-source law: `5.5` kWh per square
meter per day (line 175). -/
def AVG_IRRADIANCE : ℚ := 11 / 2

/-- The fixed panel efficiency: `0.20` (line 176). -/
def PANEL_EFFICIENCY : ℚ := 1 / 5

/-- The CO2 offset per kWh: `0.82` kg (line 182). -/
def CO2_PER_KWH : ℚ := 41 / 50

/-- The cleaning cost per liter of water: `0.05` (line 180). -/
def WATER_COST_PER_LITER : ℚ := 1 / 20

/-- The in-source efficiency loss law (line 174):
`efficiencyLoss = dust_rate * daysSinceClean * 0.002` — linear, with no
clamp. -/
def efficiency_loss_fraction (dust_rate : ℚ) (days_since_clean : ℕ) : ℚ :=
  dust_rate * days_since_clean * DEG_K

/-- The in-source recoverable energy (line 178): `panel_area * avgIrradiance
* panelEfficiency * efficiencyLoss * 30`, here with the elapsed days and the
horizon as parameters. -/
def recoverable_energy_kwh (dust_rate : ℚ) (days_since_clean : ℕ)
    (panel_area : ℚ) (horizon_days : ℕ) : ℚ :=
  panel_area * AVG_IRRADIANCE * PANEL_EFFICIENCY *
    efficiency_loss_fraction dust_rate days_since_clean * horizon_days

/-- The per-farm scoring of `optimizeFarmsClientSide` (lines 172-198):
physics at a fixed `daysSinceClean = 30` over a 30-day horizon, then the
mode priority — net benefit for PROFIT, CO2 offset for CARBON, and energy
per liter otherwise (WATER_SCARCITY), where a farm with no positive water
usage gets priority `0` (line 183). -/
def scoreFarm (mode : String) (farm : Farm) : FarmScore :=
  let energyRecoverable := recoverable_energy_kwh farm.dust_rate 30 farm.panel_area 30
  let revenue := energyRecoverable * farm.electricity_price
  let cleaningCost := farm.water_usage * WATER_COST_PER_LITER
  let netBenefit := revenue - cleaningCost
  let co2Offset := energyRecoverable * CO2_PER_KWH
  let waterEfficiency :=
    if 0 < farm.water_usage then energyRecoverable / farm.water_usage else 0
  { name := farm.name
    priority :=
      if mode = "PROFIT" then netBenefit
      else if mode = "CARBON" then co2Offset
      else waterEfficiency
    water_usage := farm.water_usage
    energy := energyRecoverable
    benefit := netBenefit
    co2 := co2Offset
    roi := if 0 < cleaningCost then netBenefit / cleaningCost else 0 }

/-- The comparator order of `farmScores.sort((a, b) => b.priority -
a.priority)` (line 201): `a` sorts at or before `b` when `a` has at least
`b`'s priority. -/
def scoreGe (a b : FarmScore) : Prop := b.priority ≤ a.priority

instance (a b : FarmScore) : Decidable (scoreGe a b) :=
  inferInstanceAs (Decidable (_ ≤ _))

/-- The sort of line 201. JavaScript `Array.prototype.sort` is stable and
must order consistently with the comparator, which determines the result
uniquely; insertion sort over the non-strict descending-priority order has
exactly these properties (permutation, sorted, ties in input order), proved
below. -/
def sortScores (l : List FarmScore) : List FarmScore :=
  l.insertionSort scoreGe

/-- The selection loop of lines 209-217: scan the sorted scores and take
every farm that still fits (`totalWater + farmData.water_usage <=
waterBudget`); a farm that does not fit is skipped and the scan continues.
Returns the selected scores in scan order and the final water total.  (The
loop also accumulates the energy, benefit and CO2 of exactly the selected
farms; those totals are recovered below as sums over the selected list.) -/
def selectionScan (b : ℚ) : List FarmScore → ℚ → List FarmScore × ℚ
  | [], totalWater => ([], totalWater)
  | s :: rest, totalWater =>
    if totalWater + s.water_usage ≤ b then
      let r := selectionScan b rest (totalWater + s.water_usage)
      (s :: r.1, r.2)
    else
      selectionScan b rest totalWater

/-- The result object of `optimizeFarmsClientSide` (lines 219-226). -/
structure OptimizeResult where
  selected_farms : List String
  water_used : ℚ
  total_benefit : ℚ
  total_energy : ℚ
  total_co2 : ℚ
  farm_details : List FarmScore
deriving DecidableEq, Repr

/-- `optimizeFarmsClientSide(farms, waterBudget, mode)` (lines 169-227):
score every farm, sort by descending priority, greedily select under the
water budget. -/
def optimizeFarmsClientSide (farms : List Farm) (waterBudget : ℚ) (mode : String) :
    OptimizeResult :=
  let farmScores := farms.map (scoreFarm mode)
  let sorted := sortScores farmScores
  let picked := selectionScan waterBudget sorted 0
  { selected_farms := picked.1.map FarmScore.name
    water_used := picked.2
    total_benefit := (picked.1.map FarmScore.benefit).sum
    total_energy := (picked.1.map FarmScore.energy).sum
    total_co2 := (picked.1.map FarmScore.co2).sum
    farm_details := picked.1 }

/-! Concrete farms used to instantiate the portfolio theorems. -/

/-- A large farm: high net benefit, 10 units of water. -/
def farmP : Farm := ⟨"Farm P", 0, 0, 100, 1, 1, 10⟩

/-- A small farm: lower net benefit, 2 units of water. -/
def farmQ : Farm := ⟨"Farm Q", 0, 0, 10, 1, 1, 2⟩

/-- One of two farms identical except for the name. -/
def tieFarmB : Farm := ⟨"Farm B", 0, 0, 10, 1, 1, 2⟩

/-- The other of the two equal-priority farms. -/
def tieFarmA : Farm := ⟨"Farm A", 0, 0, 10, 1, 1, 2⟩

/-- A farm whose cleaning consumes no water. -/
def farmZ : Farm := ⟨"Farm Z", 0, 0, 10, 1, 1, 0⟩

/-! ## Scenario simulator (spec section 4.2)

Modelled from the spec: no scenario/date-search code is in the sources (the
frontend only fetches `/analyze`), so the day scan is modelled from the
specification text; the degradation law it evaluates is the in-source one
(`MultiFarmOptimizer.tsx`, lines 174-178).  For a candidate cleaning day `d`
in `[0, horizon)`, the panels run degraded before `d` and restart from a
clean state at `d`, so the cleaning recovers on day `t ≥ d` the difference
between the uncleaned loss fraction at `t` and the re-accumulated loss
fraction at `t - d`. -/

/-- The energy a panel field produces per day per unit of loss fraction,
with the in-source constants: `panel_area * 5.5 * 0.20`. -/
def dailyEnergy (panel_area_m2 : ℚ) : ℚ :=
  panel_area_m2 * AVG_IRRADIANCE * PANEL_EFFICIENCY

/-- The loss fraction recovered on day `t` by a cleaning performed on day
`clean_day` (zero before the cleaning happens). -/
def cleaningGainOnDay (dust_rate : ℚ) (clean_day t : ℕ) : ℚ :=
  if clean_day ≤ t then
    efficiency_loss_fraction dust_rate t -
      efficiency_loss_fraction dust_rate (t - clean_day)
  else 0

/-- Modelled from the spec: the energy (kWh) recovered over the horizon by a
cleaning on `clean_day`. -/
def scenario_recovered_energy (dust_rate panel_area_m2 : ℚ)
    (horizon clean_day : ℕ) : ℚ :=
  ((Finset.range horizon).sum fun t => cleaningGainOnDay dust_rate clean_day t) *
    dailyEnergy panel_area_m2

/-- Modelled from the spec: net economic gain of a cleaning on `clean_day`;
recovered energy is valued at the electricity price and the fixed cleaning
cost is subtracted. -/
def net_economic_gain (dust_rate panel_area_m2 electricity_price cleaning_cost : ℚ)
    (horizon clean_day : ℕ) : ℚ :=
  scenario_recovered_energy dust_rate panel_area_m2 horizon clean_day *
    electricity_price - cleaning_cost

/-- The maximum possible energy loss over the horizon with no cleaning at
all (the denominator of the recoverable-capture percentage). -/
def maxLossEnergy (dust_rate panel_area_m2 : ℚ) (horizon : ℕ) : ℚ :=
  ((Finset.range horizon).sum fun t => efficiency_loss_fraction dust_rate t) *
    dailyEnergy panel_area_m2

/-- Modelled from the spec glossary: the fraction (as a percentage) of the
maximum possible energy loss actually recovered by a given cleaning date. -/
def recoverable_capture_percent (dust_rate panel_area_m2 : ℚ)
    (horizon clean_day : ℕ) : ℚ :=
  scenario_recovered_energy dust_rate panel_area_m2 horizon clean_day /
    maxLossEnergy dust_rate panel_area_m2 horizon * 100

/-! ## Rain forecast advisor (spec section 4.3)

Modelled from the spec: the RainForecastAdvisor backend module is not in the
sources.  A missing or too-short precipitation series fails with
`ForecastUnavailable`; otherwise rain within the 48 hour lookahead above the
wash threshold yields `WAIT` with its savings estimates, else `PROCEED`. -/

/-- The advisor failure of spec section 7. -/
inductive AdvisorFailure where
  | ForecastUnavailable
deriving DecidableEq, Repr

/-- The advisor verdict. -/
inductive RainDecision where
  | WAIT
  | PROCEED
deriving DecidableEq, Repr

/-- The advisor output record (spec section 4.3 and the fields rendered by
`RainIntelligence.tsx`). -/
structure RainAdvice where
  decision : RainDecision
  rain_forecast_mm : ℚ
  dust_reduction_estimate : ℚ
  water_saved_liters : ℚ
  sustainability_boost : ℚ
deriving DecidableEq, Repr

/-- Modelled from the spec: the forecast lookahead window in days. -/
def LOOKAHEAD_DAYS : ℕ := 7

/-- Modelled from the spec: the rain (mm within 48 hours) above which
natural washing beats cleaning now. -/
def WASH_THRESHOLD_MM : ℚ := 5

/-- Modelled from the spec: the rain forecast advisor.  `series` is the
daily precipitation forecast (in mm) when one was obtained at all;
`planned_volume` is the planned cleaning volume in liters. -/
def rain_forecast_advisor (series : Option (List ℚ)) (planned_volume : ℚ) :
    Except AdvisorFailure RainAdvice :=
  match series with
  | none => .error .ForecastUnavailable
  | some s =>
    if s.length < LOOKAHEAD_DAYS then
      .error .ForecastUnavailable
    else
      let rain48 := (s.take 2).sum
      if WASH_THRESHOLD_MM ≤ rain48 then
        .ok { decision := .WAIT
              rain_forecast_mm := rain48
              dust_reduction_estimate := min (rain48 / 10) 1
              water_saved_liters := planned_volume
              sustainability_boost := min (rain48 / 10) 1 * 100 }
      else
        .ok { decision := .PROCEED
              rain_forecast_mm := rain48
              dust_reduction_estimate := 0
              water_saved_liters := 0
              sustainability_boost := 0 }

/-! ## The RainIntelligence caller (from
`src/web/src/components/dashboard/RainIntelligence.tsx`)

`checkRainForecast` renders the advisor response: a successful response is
displayed as the decision card, and any failure is caught and rendered as an
error banner (`setForecast({ error: ... })`); no decision card is shown. -/

/-- What the RainIntelligence panel ends up showing for one check. -/
inductive ForecastView where
  | advice (a : RainAdvice)
  | failureMessage (msg : String)
deriving DecidableEq, Repr

/-- The response handling of `RainIntelligence.checkRainForecast`: `setForecast(data)`
on success, `setForecast({ error: ... })` in the catch block. -/
def checkRainForecast (resp : Except AdvisorFailure RainAdvice) : ForecastView :=
  match resp with
  | .ok a => .advice a
  | .error _ => .failureMessage "Failed to fetch forecast"

/-- The view shows a PROCEED decision. -/
def viewIsProceed : ForecastView → Prop
  | .advice a => a.decision = RainDecision.PROCEED
  | .failureMessage _ => False

/-- The view shows a WAIT (defer cleaning) decision. -/
def viewIsWait : ForecastView → Prop
  | .advice a => a.decision = RainDecision.WAIT
  | .failureMessage _ => False

/-! ## The LivePreview fallbacks (from
`src/web/src/components/landing/Metrics.tsx`)

`Metrics.tsx` holds two versions of a `LivePreview` component.  Both fetch
`/analyze` and, in the catch branch, substitute a hard-coded result.  The
record below is the union of the two `AnalysisData` interfaces; fields the
first version does not have are `Option`s left `none` by it. -/

/-- The recommendation field of the analyze response. -/
inductive Recommendation where
  | CLEAN
  | WAIT
deriving DecidableEq, Repr

/-- The `explanation` object of the second `AnalysisData` interface. -/
structure Explanation where
  model : String
  reason : Option String
  reasons : List String
  optimization_score : ℚ
deriving DecidableEq, Repr

/-- The `confidence_interval` object of the second `AnalysisData` interface. -/
structure ConfidenceInterval where
  p10_benefit : ℚ
  p90_benefit : ℚ
  uncertainty_spread_kwh : ℚ
deriving DecidableEq, Repr

/-- The analyze response displayed by `LivePreview`. -/
structure AnalysisData where
  recommendation : Recommendation
  cleaning_date : Option String
  total_output_gain_percent : ℚ
  recoverable_capture_percent : ℚ
  additional_energy_kwh : ℚ
  carbon_saved_kg : ℚ
  net_economic_gain_inr : ℚ
  water_used_liters : ℚ
  sses_score : Option ℚ
  explanation : Option Explanation
  confidence_interval : Option ConfidenceInterval
deriving DecidableEq, Repr

/-- A failed `/analyze` request (non-ok status or a network error). -/
inductive FetchFailure where
  | connectionFailed
  | badStatus
deriving DecidableEq, Repr

/-- The user-controlled inputs of the `LivePreview` panel. -/
structure LiveInputs where
  location : String
  carbonPriority : ℤ
  cleaningCost : ℤ
  plantCapacityMW : ℤ
deriving DecidableEq, Repr

/-- The hard-coded catch-branch result of the FIRST `LivePreview.fetchAnalysis`
(`Metrics.tsx`, first version): plain numbers with no score, no explanation
and no confidence interval. -/
def fallbackFirst : AnalysisData :=
  { recommendation := .CLEAN
    cleaning_date := some "2024-12-15"
    total_output_gain_percent := 25 / 2
    recoverable_capture_percent := 226 / 5
    additional_energy_kwh := 125
    carbon_saved_kg := 175 / 2
    net_economic_gain_inr := 2450
    water_used_liters := 500
    sses_score := none
    explanation := none
    confidence_interval := none }

/-- The explanation object of the second fallback, flagging the data as an
offline simulation. -/
def offlineExplanation : Explanation :=
  { model := "Dynamic Programming (Offline)"
    reason := some "Simulated fallback data due to connection error."
    reasons := []
    optimization_score := 100 }

/-- The hard-coded catch-branch result of the SECOND `LivePreview.fetchAnalysis`
(`Metrics.tsx`, second version): same numbers plus an SSES score, the
offline-flagged explanation and a fixed confidence interval. -/
def fallbackSecond : AnalysisData :=
  { recommendation := .CLEAN
    cleaning_date := some "2024-12-15"
    total_output_gain_percent := 25 / 2
    recoverable_capture_percent := 226 / 5
    additional_energy_kwh := 125
    carbon_saved_kg := 175 / 2
    net_economic_gain_inr := 2450
    water_used_liters := 500
    sses_score := some (427 / 5)
    explanation := some offlineExplanation
    confidence_interval := some ⟨2100, 2800, 91 / 2⟩ }

/-- The first `LivePreview.fetchAnalysis`: the parsed response on success,
`fallbackFirst` in the catch branch, whatever the inputs were. -/
def fetchAnalysisFirst (inputs : LiveInputs)
    (resp : Except FetchFailure AnalysisData) : AnalysisData :=
  match inputs, resp with
  | _, .ok d => d
  | _, .error _ => fallbackFirst

/-- The second `LivePreview.fetchAnalysis`: the parsed response on success,
`fallbackSecond` in the catch branch, whatever the inputs were. -/
def fetchAnalysisSecond (inputs : LiveInputs)
    (resp : Except FetchFailure AnalysisData) : AnalysisData :=
  match inputs, resp with
  | _, .ok d => d
  | _, .error _ => fallbackSecond

/-- The displayed record carries a demo/offline label: its explanation is
present and names the offline model or the simulated-fallback reason. -/
def demoLabeled (d : AnalysisData) : Prop :=
  ∃ e, d.explanation = some e ∧
    (e.model = "Dynamic Programming (Offline)" ∨
      e.reason = some "Simulated fallback data due to connection error.")

/-! ## Lemmas about the scoring and the selection loop -/

/-- Scoring keeps the water usage of the farm. -/
lemma scoreFarm_water (m : String) (f : Farm) :
    (scoreFarm m f).water_usage = f.water_usage := rfl

/-- Scoring keeps the name of the farm. -/
lemma scoreFarm_name (m : String) (f : Farm) :
    (scoreFarm m f).name = f.name := rfl

/-- The running water total never exceeds the budget once it starts below it. -/
lemma selectionScan_snd_le_budget (b : ℚ) :
    ∀ (l : List FarmScore) (r : ℚ), r ≤ b → (selectionScan b l r).2 ≤ b := by
  intro l
  induction l with
  | nil => intro r hr; simpa [selectionScan] using hr
  | cons s rest ih =>
    intro r hr
    by_cases hc : r + s.water_usage ≤ b
    · simpa [selectionScan, hc] using ih (r + s.water_usage) hc
    · simpa [selectionScan, hc] using ih r hr

/-- A zero-water farm of the scanned list is always selected. -/
lemma selectionScan_mem_of_zero_water (b : ℚ) :
    ∀ (l : List FarmScore) (r : ℚ) (s : FarmScore),
      s ∈ l → s.water_usage = 0 → r ≤ b → s ∈ (selectionScan b l r).1 := by
  intro l
  induction l with
  | nil => intro r s hs; exact absurd hs (List.not_mem_nil s)
  | cons g rest ih =>
    intro r s hs hw hr
    rcases List.mem_cons.mp hs with rfl | hs2
    · have hc : r + s.water_usage ≤ b := by rw [hw, add_zero]; exact hr
      simp [selectionScan, hc]
    · by_cases hc : r + g.water_usage ≤ b
      · simp only [selectionScan, if_pos hc]
        exact List.mem_cons_of_mem g (ih (r + g.water_usage) s hs2 hw hc)
      · simp only [selectionScan, if_neg hc]
        exact ih r s hs2 hw hr

/-- Raising the budget never lowers the final running water total.  The
invariant: either the two runs still agree, or the larger-budget run has
already committed more water than the whole smaller budget. -/
lemma selectionScan_snd_mono (b1 b2 : ℚ) (hb : b1 ≤ b2) :
    ∀ (l : List FarmScore), (∀ s ∈ l, 0 ≤ s.water_usage) →
      ∀ (r1 r2 : ℚ), r1 ≤ b1 → (r1 = r2 ∨ b1 < r2) →
        (selectionScan b1 l r1).2 ≤ (selectionScan b2 l r2).2 := by
  intro l
  induction l with
  | nil =>
    intro _ r1 r2 h1 h2
    rcases h2 with rfl | h
    · simp [selectionScan]
    · simp only [selectionScan]
      linarith
  | cons s rest ih =>
    intro hw r1 r2 h1 h2
    have hws : 0 ≤ s.water_usage := hw s (List.mem_cons_self s rest)
    have hwr : ∀ g ∈ rest, 0 ≤ g.water_usage := fun g hg => hw g (List.mem_cons_of_mem s hg)
    rcases h2 with rfl | hlt
    · by_cases c1 : r1 + s.water_usage ≤ b1
      · have c2 : r1 + s.water_usage ≤ b2 := le_trans c1 hb
        simpa [selectionScan, c1, c2] using
          ih hwr (r1 + s.water_usage) (r1 + s.water_usage) c1 (Or.inl rfl)
      · by_cases c2 : r1 + s.water_usage ≤ b2
        · simpa [selectionScan, c1, c2] using
            ih hwr r1 (r1 + s.water_usage) h1 (Or.inr (not_le.mp c1))
        · simpa [selectionScan, c1, c2] using ih hwr r1 r1 h1 (Or.inl rfl)
    · by_cases c1 : r1 + s.water_usage ≤ b1
      · by_cases c2 : r2 + s.water_usage ≤ b2
        · have hlt2 : b1 < r2 + s.water_usage :=
            lt_of_lt_of_le hlt (le_add_of_nonneg_right hws)
          simpa [selectionScan, c1, c2] using
            ih hwr (r1 + s.water_usage) (r2 + s.water_usage) c1 (Or.inr hlt2)
        · simpa [selectionScan, c1, c2] using
            ih hwr (r1 + s.water_usage) r2 c1 (Or.inr hlt)
      · by_cases c2 : r2 + s.water_usage ≤ b2
        · have hlt2 : b1 < r2 + s.water_usage :=
            lt_of_lt_of_le hlt (le_add_of_nonneg_right hws)
          simpa [selectionScan, c1, c2] using ih hwr r1 (r2 + s.water_usage) h1 (Or.inr hlt2)
        · simpa [selectionScan, c1, c2] using ih hwr r1 r2 h1 (Or.inr hlt)

/-- Sorting does not change which scores are present. -/
lemma mem_sortScores_iff (l : List FarmScore) (s : FarmScore) :
    s ∈ sortScores l ↔ s ∈ l :=
  (List.perm_insertionSort scoreGe l).mem_iff

/-! Stability of the sort: inserting an element keeps every existing
sublist, and an element is inserted before everything it relates to, so two
elements in the relation keep their relative order. -/

/-- A list is a sublist of itself with one element inserted. -/
lemma sublist_orderedInsert {α : Type*} (r : α → α → Prop) [DecidableRel r]
    (a : α) : ∀ l : List α, List.Sublist l (List.orderedInsert r a l) := by
  intro l
  induction l with
  | nil => simp [List.orderedInsert]
  | cons b t ih =>
    by_cases hb : r a b
    · simp only [List.orderedInsert, if_pos hb]
      exact List.sublist_cons_self a (b :: t)
    · simp only [List.orderedInsert, if_neg hb]
      exact ih.cons₂ b

/-- Inserting `x` into a list places it before every member `y` with
`r x y`. -/
lemma orderedInsert_pair_sublist {α : Type*} (r : α → α → Prop) [DecidableRel r]
    (x y : α) : ∀ l : List α, y ∈ l → r x y →
      List.Sublist [x, y] (List.orderedInsert r x l) := by
  intro l
  induction l with
  | nil => intro hy; exact absurd hy (List.not_mem_nil y)
  | cons b t ih =>
    intro hy hr
    by_cases hb : r x b
    · simp only [List.orderedInsert, if_pos hb]
      exact (List.singleton_sublist.mpr hy).cons₂ x
    · simp only [List.orderedInsert, if_neg hb]
      rcases List.mem_cons.mp hy with rfl | hy2
      · exact absurd hr hb
      · exact (ih hy2 hr).cons b

/-- Stability: two elements in the relation `r` that appear in order in the
input appear in the same order after sorting. -/
lemma insertionSort_stable_pair {α : Type*} (r : α → α → Prop) [DecidableRel r] :
    ∀ (l : List α) (x y : α), r x y → List.Sublist [x, y] l →
      List.Sublist [x, y] (l.insertionSort r) := by
  intro l
  induction l with
  | nil => intro x y _ h; simp at h
  | cons a t ih =>
    intro x y hr h
    simp only [List.insertionSort]
    cases h with
    | cons _ h2 =>
      exact (ih x y hr h2).trans (sublist_orderedInsert r a (t.insertionSort r))
    | cons₂ _ h2 =>
      exact orderedInsert_pair_sublist r a y (t.insertionSort r)
        ((List.perm_insertionSort r t).mem_iff.mpr (List.singleton_sublist.mp h2)) hr

/-! ## C1: water_used never exceeds the budget -/

/-- C1.  For every farm list, every water budget at least zero and every
mode, the selection of `optimizeFarmsClientSide` uses at most the budget:
`water_used ≤ water_budget`. -/
theorem portfolio_water_le_budget (farms : List Farm) (b : ℚ) (m : String)
    (hb : 0 ≤ b) :
    (optimizeFarmsClientSide farms b m).water_used ≤ b := by
  simp only [optimizeFarmsClientSide]
  exact selectionScan_snd_le_budget b (sortScores (farms.map (scoreFarm m))) 0 hb

/-- C1 witness: the budget-compliance theorem applied to one farm and
budget 10. -/
theorem portfolio_water_le_budget_witness :
    (optimizeFarmsClientSide [farmP] 10 "PROFIT").water_used ≤ 10 :=
  portfolio_water_le_budget [farmP] 10 "PROFIT" (by norm_num)

/-! ## C2: zero-water farms are always selected -/

/-- C2.  A farm whose cleaning consumes no water is always part of the
returned selection, for every budget at least zero and every mode: the
running water total never exceeds the budget, so such a farm always fits
when the scan reaches it. -/
theorem portfolio_zero_water_selected (farms : List Farm) (b : ℚ) (m : String)
    (f : Farm) (hb : 0 ≤ b) (hf : f ∈ farms) (hw : f.water_usage = 0) :
    f.name ∈ (optimizeFarmsClientSide farms b m).selected_farms := by
  simp only [optimizeFarmsClientSide]
  have hmem : scoreFarm m f ∈ sortScores (farms.map (scoreFarm m)) :=
    (mem_sortScores_iff _ _).mpr (List.mem_map_of_mem (scoreFarm m) hf)
  have hw2 : (scoreFarm m f).water_usage = 0 := by rw [scoreFarm_water]; exact hw
  have hsel := selectionScan_mem_of_zero_water b
    (sortScores (farms.map (scoreFarm m))) 0 (scoreFarm m f) hmem hw2 hb
  rw [← scoreFarm_name m f]
  exact List.mem_map_of_mem FarmScore.name hsel

/-- C2 witness: the zero-water farm `farmZ` is selected even at budget 0,
in WATER_SCARCITY mode (where the in-source code scores it 0). -/
theorem portfolio_zero_water_selected_witness :
    "Farm Z" ∈ (optimizeFarmsClientSide [farmZ] 0 "WATER_SCARCITY").selected_farms :=
  portfolio_zero_water_selected [farmZ] 0 "WATER_SCARCITY" farmZ le_rfl
    (List.mem_singleton_self farmZ) rfl

/-! ## C3: determinism and the tie-break

The optimizer is a pure function, so identical inputs give identical
outputs.  But the in-source sort comparator reads only `priority`; farms
have no id, and ties keep the input order (stable sort).  Two farms that
differ only in name therefore come out in whichever order they went in —
there is no farm-id tie-break. -/

/-- C3 counterexample: `tieFarmB` and `tieFarmA` have equal priority, and
swapping their input order swaps the output order of `selected_farms` —
ties follow the input position, not any farm id. -/
theorem portfolio_no_id_tiebreak_cex :
    (scoreFarm "PROFIT" tieFarmB).priority = (scoreFarm "PROFIT" tieFarmA).priority ∧
    (optimizeFarmsClientSide [tieFarmB, tieFarmA] 10 "PROFIT").selected_farms =
      ["Farm B", "Farm A"] ∧
    (optimizeFarmsClientSide [tieFarmA, tieFarmB] 10 "PROFIT").selected_farms =
      ["Farm A", "Farm B"] := by
  refine ⟨by norm_num [scoreFarm, recoverable_energy_kwh, efficiency_loss_fraction,
    DEG_K, AVG_IRRADIANCE, PANEL_EFFICIENCY, WATER_COST_PER_LITER, CO2_PER_KWH,
    tieFarmA, tieFarmB], ?_, ?_⟩ <;>
    norm_num [optimizeFarmsClientSide, sortScores, List.insertionSort,
      List.orderedInsert, selectionScan, scoreFarm, scoreGe,
      recoverable_energy_kwh, efficiency_loss_fraction, DEG_K, AVG_IRRADIANCE,
      PANEL_EFFICIENCY, WATER_COST_PER_LITER, CO2_PER_KWH, tieFarmA, tieFarmB]

/-- C3 amended.  `optimizeFarmsClientSide` is deterministic — identical
inputs (the same farm list in the same order, budget and mode) yield
identical results, ordering included — and priority ties are broken by
position in the input list: the sort is stable, keeping any two
equal-priority scores in their input order. -/
theorem optimize_deterministic_stable :
    (∀ (farms₁ farms₂ : List Farm) (b₁ b₂ : ℚ) (m₁ m₂ : String),
      farms₁ = farms₂ → b₁ = b₂ → m₁ = m₂ →
        optimizeFarmsClientSide farms₁ b₁ m₁ = optimizeFarmsClientSide farms₂ b₂ m₂) ∧
    (∀ (l : List FarmScore) (x y : FarmScore),
      x.priority = y.priority → List.Sublist [x, y] l →
        List.Sublist [x, y] (sortScores l)) := by
  constructor
  · intro _ _ _ _ _ _ h1 h2 h3
    rw [h1, h2, h3]
  · intro l x y hp h
    exact insertionSort_stable_pair scoreGe l x y (le_of_eq hp.symm) h

/-! ## C4: budget monotonicity of the selection

The selection loop skips a farm that does not fit and keeps scanning, so a
larger budget can let a high-priority farm in and thereby push a previously
selected lower-priority farm out: the selected set is NOT monotone in the
budget.  What is monotone is the total water committed. -/

/-- C4 counterexample: with `farmP` (priority 197.5, water 10) and `farmQ`
(priority 19.7, water 2) in PROFIT mode, Farm Q is selected at budget 2 but
not at the larger budget 10, where Farm P fits and exhausts the budget
first. -/
theorem portfolio_not_monotone_cex :
    (2 : ℚ) ≤ 10 ∧
    "Farm Q" ∈ (optimizeFarmsClientSide [farmP, farmQ] 2 "PROFIT").selected_farms ∧
    "Farm Q" ∉ (optimizeFarmsClientSide [farmP, farmQ] 10 "PROFIT").selected_farms := by
  refine ⟨by norm_num, ?_, ?_⟩ <;>
    norm_num [optimizeFarmsClientSide, sortScores, List.insertionSort,
      List.orderedInsert, selectionScan, scoreFarm, scoreGe,
      recoverable_energy_kwh, efficiency_loss_fraction, DEG_K, AVG_IRRADIANCE,
      PANEL_EFFICIENCY, WATER_COST_PER_LITER, CO2_PER_KWH, farmP, farmQ] <;>
    decide

/-- C4 amended.  For a fixed farm list and mode with nonnegative water
usages, the selection is monotone in the budget in terms of water
committed: a larger budget never yields a selection using less water.  (The
selected set itself is not monotone, see the counterexample.) -/
theorem portfolio_water_used_monotone (farms : List Farm) (m : String)
    (b1 b2 : ℚ) (h0 : 0 ≤ b1) (hb : b1 ≤ b2)
    (hw : ∀ f ∈ farms, 0 ≤ f.water_usage) :
    (optimizeFarmsClientSide farms b1 m).water_used ≤
      (optimizeFarmsClientSide farms b2 m).water_used := by
  simp only [optimizeFarmsClientSide]
  refine selectionScan_snd_mono b1 b2 hb (sortScores (farms.map (scoreFarm m)))
    ?_ 0 0 h0 (Or.inl rfl)
  intro s hs
  obtain ⟨f, hf, rfl⟩ := List.mem_map.mp ((mem_sortScores_iff _ _).mp hs)
  rw [scoreFarm_water]
  exact hw f hf

/-- C4 amended witness: at budgets 2 and 10 over `[farmP, farmQ]` the water
used rises (from 2 to 10). -/
theorem portfolio_water_used_monotone_witness :
    (optimizeFarmsClientSide [farmP, farmQ] 2 "PROFIT").water_used ≤
      (optimizeFarmsClientSide [farmP, farmQ] 10 "PROFIT").water_used :=
  portfolio_water_used_monotone [farmP, farmQ] "PROFIT" 2 10
    (by norm_num) (by norm_num) (by decide)

/-! ## C5: failed fetches and the demo/offline label -/

/-- C5 counterexample: in the first `LivePreview`, a failed `/analyze`
request is silently replaced by the fixed fabricated record `fallbackFirst`,
which carries no demo/offline label at all (its displayed interface has no
explanation field). -/
theorem silent_fallback_cex :
    fetchAnalysisFirst (LiveInputs.mk "Chennai, India" 50 1500 25)
        (.error .connectionFailed) = fallbackFirst ∧
    ¬ demoLabeled (fetchAnalysisFirst (LiveInputs.mk "Chennai, India" 50 1500 25)
        (.error .connectionFailed)) := by
  refine ⟨rfl, ?_⟩
  rintro ⟨e, he, -⟩
  simp [fetchAnalysisFirst, fallbackFirst] at he

/-- C5 amended.  On a failed `/analyze` fetch, the second `LivePreview`
substitutes data that is explicitly flagged as offline/simulated, but the
first `LivePreview` substitutes its fixed record with no demo/offline label
whatsoever. -/
theorem fallback_labeling :
    (∀ (i : LiveInputs) (e : FetchFailure),
      demoLabeled (fetchAnalysisSecond i (.error e))) ∧
    (∀ (i : LiveInputs) (e : FetchFailure),
      (fetchAnalysisFirst i (.error e)).explanation = none) := by
  constructor
  · intro i e
    exact ⟨offlineExplanation, rfl, Or.inl rfl⟩
  · intro i e
    rfl

/-! ## Lemma about the scenario day scan -/

/-- Each of the `H - d` days after the cleaning recovers the same
`dust * d * k` loss fraction (the in-source law is linear), so the scan
telescopes to `(H - d) * dust * d * k`. -/
lemma cleaningGain_sum (dust : ℚ) :
    ∀ (H d : ℕ), d ≤ H →
      (Finset.range H).sum (fun t => cleaningGainOnDay dust d t) =
        ((H - d : ℕ) : ℚ) * (dust * d * DEG_K) := by
  intro H
  induction H with
  | zero =>
    intro d hd0
    have hd : d = 0 := Nat.le_zero.mp hd0
    subst hd
    simp
  | succ n ih =>
    intro d hdn
    by_cases hc : d ≤ n
    · rw [Finset.sum_range_succ, ih d hc]
      have hterm : cleaningGainOnDay dust d n = dust * d * DEG_K := by
        simp only [cleaningGainOnDay, if_pos hc, efficiency_loss_fraction]
        have hcast : ((n - d : ℕ) : ℚ) = (n : ℚ) - d := Nat.cast_sub hc
        rw [hcast]
        ring
      rw [hterm]
      have hfs : (n + 1 - d : ℕ) = (n - d) + 1 := by omega
      rw [hfs]
      push_cast
      ring
    · have hd1 : d = n + 1 := by omega
      subst hd1
      rw [Finset.sum_eq_zero, Nat.sub_self]
      · simp
      · intro t ht
        have hlt := Finset.mem_range.mp ht
        simp only [cleaningGainOnDay]
        rw [if_neg (by omega)]

/-! ## C6: the day-5 stress fixture

The repository README documents the stress-test contract "Early cleaning
(day 5) → negative net gain".  Under the in-source degradation law
(k = 0.002, irradiance 5.5, efficiency 0.20, no clamp), the day-5 cleaning
of the fixture recovers 41250 kWh worth 268125 against a 1500 cleaning
cost: the net gain is +266625, strongly positive. -/

/-- C6: evaluating the day scan at the stress fixture (dust 1.2, area
125000, price 6.5, cost 1500, day 5 of 30) under the in-source constants
gives a net economic gain of +266625 — not a negative gain. -/
theorem day5_fixture_gain :
    net_economic_gain (6 / 5) 125000 (13 / 2) 1500 30 5 = 266625 ∧
    0 < net_economic_gain (6 / 5) 125000 (13 / 2) 1500 30 5 := by
  have h := cleaningGain_sum (6 / 5) 30 5 (by norm_num)
  constructor <;>
  · simp only [net_economic_gain, scenario_recovered_energy]
    rw [h]
    norm_num [dailyEnergy, AVG_IRRADIANCE, PANEL_EFFICIENCY, DEG_K]

/-! ## C7: a day-25 cleaning captures less than a day-15 cleaning -/

/-- C7.  All else equal (same positive dust rate and area), a cleaning on
day 25 of a 30-day horizon has a strictly lower recoverable-capture
percentage than a cleaning on day 15: the window to enjoy the restored
efficiency is shorter (5 times 25 against 15 times 15 dust-day units). -/
theorem late_cleaning_lower_capture (dust area : ℚ) (hd : 0 < dust)
    (ha : 0 < area) :
    recoverable_capture_percent dust area 30 25 <
      recoverable_capture_percent dust area 30 15 := by
  have hK : (0 : ℚ) < DEG_K := by norm_num [DEG_K]
  have hE : 0 < dailyEnergy area := by
    simp only [dailyEnergy, AVG_IRRADIANCE, PANEL_EFFICIENCY]
    nlinarith
  have hden : 0 < maxLossEnergy dust area 30 := by
    simp only [maxLossEnergy]
    refine mul_pos (Finset.sum_pos' (fun t _ => ?_) ?_) hE
    · simp only [efficiency_loss_fraction]
      exact mul_nonneg (mul_nonneg hd.le (Nat.cast_nonneg t)) hK.le
    · refine ⟨29, Finset.mem_range.mpr (by norm_num), ?_⟩
      simp only [efficiency_loss_fraction]
      have h29 : (0 : ℚ) < ((29 : ℕ) : ℚ) := by norm_num
      exact mul_pos (mul_pos hd h29) hK
  have h25 := cleaningGain_sum dust 30 25 (by norm_num)
  have h15 := cleaningGain_sum dust 30 15 (by norm_num)
  simp only [recoverable_capture_percent, scenario_recovered_energy]
  rw [h25, h15]
  have e1 : ((30 - 25 : ℕ) : ℚ) = 5 := by norm_num
  have e2 : ((30 - 15 : ℕ) : ℚ) = 15 := by norm_num
  have e3 : ((25 : ℕ) : ℚ) = 25 := by norm_num
  have e4 : ((15 : ℕ) : ℚ) = 15 := by norm_num
  simp only [e1, e2, e3, e4]
  have hnum : (5 : ℚ) * (dust * 25 * DEG_K) * dailyEnergy area <
      15 * (dust * 15 * DEG_K) * dailyEnergy area := by
    nlinarith [mul_pos (mul_pos hd hK) hE]
  exact mul_lt_mul_of_pos_right ((div_lt_div_iff_of_pos_right hden).mpr hnum) (by norm_num)

/-- C7 witness: the comparison instantiated at the stress fixture. -/
theorem late_cleaning_lower_capture_witness :
    recoverable_capture_percent (6 / 5) 125000 30 25 <
      recoverable_capture_percent (6 / 5) 125000 30 15 :=
  late_cleaning_lower_capture (6 / 5) 125000 (by norm_num) (by norm_num)

/-! ## C9: the degradation model and its claimed loss interval -/

/-- C9 counterexample: the in-source loss law has no clamp — dust 100 at 30
days gives a loss fraction of 6 (six hundred percent), which lies in no
interval `[0, max_loss)` for a loss cap below one hundred percent. -/
theorem loss_no_clamp_cex :
    efficiency_loss_fraction 100 30 = 6 ∧
    ¬ efficiency_loss_fraction 100 30 < 1 := by
  have h : efficiency_loss_fraction 100 30 = 6 := by
    norm_num [efficiency_loss_fraction, DEG_K]
  exact ⟨h, by rw [h]; norm_num⟩

/-- C9 amended.  The in-source model computes the UNCLAMPED linear law
`efficiency_loss_fraction = dust_rate * days_since_clean * k`: it is
nonnegative for nonnegative inputs but exceeds every bound (no `max_loss`
cap exists); the recoverable energy follows the stated product formula,
and a zero dust rate yields zero recoverable energy. -/
theorem degradation_model_props :
    (∀ (dust : ℚ) (days : ℕ), 0 ≤ dust → 0 ≤ efficiency_loss_fraction dust days) ∧
    (∀ M : ℚ, ∃ (dust : ℚ) (days : ℕ),
      0 ≤ dust ∧ M < efficiency_loss_fraction dust days) ∧
    (∀ (dust : ℚ) (days : ℕ) (area : ℚ) (H : ℕ),
      recoverable_energy_kwh dust days area H =
        area * AVG_IRRADIANCE * PANEL_EFFICIENCY *
          efficiency_loss_fraction dust days * H) ∧
    (∀ (days : ℕ) (area : ℚ) (H : ℕ), recoverable_energy_kwh 0 days area H = 0) := by
  refine ⟨?_, ?_, fun _ _ _ _ => rfl, ?_⟩
  · intro dust days hd
    have hK : (0 : ℚ) ≤ DEG_K := by norm_num [DEG_K]
    exact mul_nonneg (mul_nonneg hd (Nat.cast_nonneg days)) hK
  · intro M
    refine ⟨500 * (max M 0 + 1), 1, ?_, ?_⟩
    · have := le_max_right M 0
      nlinarith
    · simp only [efficiency_loss_fraction, DEG_K, Nat.cast_one]
      have := le_max_left M 0
      nlinarith
  · intro days area H
    simp [recoverable_energy_kwh, efficiency_loss_fraction]

/-! ## C8: forecast failure handling -/

/-- C8 counterexample: on a missing forecast series the advisor fails with
`ForecastUnavailable`, and the `RainIntelligence` caller renders that
failure as an error banner — it does NOT default to a PROCEED decision. -/
theorem forecast_failure_not_proceed_cex :
    rain_forecast_advisor none 1200 =
      Except.error AdvisorFailure.ForecastUnavailable ∧
    checkRainForecast (Except.error AdvisorFailure.ForecastUnavailable) =
      ForecastView.failureMessage "Failed to fetch forecast" ∧
    ¬ viewIsProceed
      (checkRainForecast (Except.error AdvisorFailure.ForecastUnavailable)) := by
  refine ⟨rfl, rfl, ?_⟩
  simp [checkRainForecast, viewIsProceed]

/-- C8 amended.  The advisor raises `ForecastUnavailable` exactly when the
precipitation series is missing or shorter than the lookahead window; on
that failure the `RainIntelligence` caller shows an error banner — so it
never waits, but it does not emit a PROCEED decision either. -/
theorem forecast_unavailable_handling :
    (∀ (series : Option (List ℚ)) (v : ℚ),
      rain_forecast_advisor series v =
          Except.error AdvisorFailure.ForecastUnavailable ↔
        series = none ∨ ∃ s, series = some s ∧ s.length < LOOKAHEAD_DAYS) ∧
    (∀ e : AdvisorFailure,
      checkRainForecast (Except.error e) =
          ForecastView.failureMessage "Failed to fetch forecast" ∧
      ¬ viewIsWait (checkRainForecast (Except.error e)) ∧
      ¬ viewIsProceed (checkRainForecast (Except.error e))) := by
  constructor
  · intro series v
    cases series with
    | none => simp [rain_forecast_advisor]
    | some s =>
      by_cases h : s.length < LOOKAHEAD_DAYS
      · simp [rain_forecast_advisor, h]
      · constructor
        · intro habs
          rw [rain_forecast_advisor] at habs
          simp only [if_neg h] at habs
          split at habs <;> exact absurd habs (by simp)
        · rintro (habs | ⟨s2, hs2, hlen⟩)
          · exact absurd habs (by simp)
          · cases Option.some.inj hs2
            exact absurd hlen h
  · intro e
    refine ⟨rfl, ?_, ?_⟩ <;> simp [checkRainForecast, viewIsWait, viewIsProceed]

/-! ## C10: the fallback of the second LivePreview ignores all inputs -/

/-- C10.  Whenever the `/analyze` request fails, the second `LivePreview`
displays one fixed record — any two failed runs, whatever their location,
carbon priority, cleaning cost or plant capacity, show identical data: the
constant `fallbackSecond` with recommendation CLEAN, cleaning date
2024-12-15, net gain 2450, SSES score 85.4 and fixed confidence-interval
values. -/
theorem fallback_independent_of_inputs :
    (∀ (i₁ i₂ : LiveInputs) (e₁ e₂ : FetchFailure),
      fetchAnalysisSecond i₁ (.error e₁) = fetchAnalysisSecond i₂ (.error e₂)) ∧
    (∀ (i : LiveInputs) (e : FetchFailure),
      fetchAnalysisSecond i (.error e) = fallbackSecond ∧
      (fetchAnalysisSecond i (.error e)).recommendation = Recommendation.CLEAN ∧
      (fetchAnalysisSecond i (.error e)).cleaning_date = some "2024-12-15" ∧
      (fetchAnalysisSecond i (.error e)).net_economic_gain_inr = 2450 ∧
      (fetchAnalysisSecond i (.error e)).sses_score = some (427 / 5) ∧
      (fetchAnalysisSecond i (.error e)).confidence_interval =
        some (ConfidenceInterval.mk 2100 2800 (91 / 2))) := by
  exact ⟨fun _ _ _ _ => rfl, fun _ _ => ⟨rfl, rfl, rfl, rfl, rfl, rfl⟩⟩

end SolarOS
